import Mathlib

/-!
# Verification of the rotki convex decoder and data-migration manager

Shallow embedding of `rotkehlchen/chain/ethereum/modules/convex/decoder.py`
and of the data-migration manager exercised by
`rotkehlchen/tests/data_migrations/test_migrations.py`.

Addresses are modelled as natural numbers (the last 20 bytes of a topic),
32-byte topic words as natural numbers, log data as a list of bytes, and
decimal `FVal` amounts as rationals.  In-place mutation of history events is
modelled by state passing: each rule maps an event to the event it leaves
behind, together with any notification it emits; a Python exception that
escapes a rule is modelled by an `Except` result carrying the error.
-/

namespace Rotki

/-! ## Data model -/

abbrev Address := Nat

/-- The zero / burn address `0x0000000000000000000000000000000000000000`. -/
def ZERO_ADDRESS : Address := 0

inductive HistoryEventType
  | trade
  | spend
  | receive
  | deposit
  | withdrawal
  | informational
  deriving DecidableEq, Repr

inductive HistoryEventSubType
  | none
  | reward
  | return_wrapped
  | fee
  | deriving_extra
  deriving DecidableEq, Repr

structure CryptoAsset where
  symbol : String
  decimals : Nat
  deriving DecidableEq, Repr

/-- The two typed errors the asset resolver can raise. -/
inductive AssetError
  | unknownAsset
  | wrongAssetType
  deriving DecidableEq, Repr

/-- How a given asset behaves under resolution: either it resolves to a
crypto asset with symbol and decimals, or the resolver raises one of the two
typed errors. -/
inductive AssetResolution
  | resolved (asset : CryptoAsset)
  | unknown
  | wrongType
  deriving DecidableEq, Repr

structure Asset where
  resolution : AssetResolution
  deriving DecidableEq, Repr

/-- `asset.resolve_to_crypto_asset()`: returns the crypto asset or raises
`UnknownAsset` / `WrongAssetType`, modelled as an `Except` value. -/
def Asset.resolve_to_crypto_asset (a : Asset) : Except AssetError CryptoAsset :=
  match a.resolution with
  | .resolved ca => .ok ca
  | .unknown => .error .unknownAsset
  | .wrongType => .error .wrongAssetType

structure Balance where
  amount : ℚ
  deriving DecidableEq, Repr

/-- A history event as the decoder sees it: produced by the upstream generic
pass and mutated in place by decoder rules. -/
structure HistoryEvent where
  event_type : HistoryEventType
  event_subtype : HistoryEventSubType
  asset : Asset
  balance : Balance
  location_label : Option Address
  address : Option Address
  notes : Option String
  counterparty : Option String
  deriving DecidableEq, Repr

/-- One raw EVM log: emitting address, 32-byte topic words, data bytes. -/
structure EvmTxLog where
  address : Address
  topics : List Nat
  data : List Nat
  deriving DecidableEq, Repr

structure EvmTransaction where
  from_address : Address
  deriving DecidableEq, Repr

/-- Modelled from the spec (`rotkehlchen/utils/misc.py` is not among the
sampled sources): parse a byte string as a big-endian unsigned integer. -/
def hex_or_bytes_to_int (bs : List Nat) : Nat :=
  bs.foldl (fun acc b => acc * 256 + b) 0

/-- Modelled from the spec (`rotkehlchen/utils/misc.py` is not among the
sampled sources): the address held in a 32-byte topic word is its last
20 bytes. -/
def hex_or_bytes_to_address (topic : Nat) : Address :=
  topic % 2 ^ 160

/-- Modelled from the spec (`rotkehlchen/chain/ethereum/utils.py` is not among
the sampled sources): normalize a raw base-unit integer amount by the asset's
decimal count. -/
def asset_normalized_value (amount : Nat) (asset : CryptoAsset) : ℚ :=
  (amount : ℚ) / (10 : ℚ) ^ asset.decimals

/-! ## Convex constants

`rotkehlchen/chain/ethereum/modules/convex/constants.py` is not among the
sampled sources, so the static tables it exports are modelled from the spec as
parameters of the decoder: two static signature sets (disjoint per the spec),
the address-to-pool-name table, the abracadabra allow-list and the generic
transfer signature. -/

structure ConvexConstants where
  WITHDRAWAL_TOPICS : List Nat
  REWARD_TOPICS : List Nat
  CONVEX_POOLS : List (Address × String)
  CONVEX_ABRAS_HEX : List Nat
  ERC20_OR_ERC721_TRANSFER : Nat
  deriving DecidableEq, Repr

/-- The protocol attribution tag of this module. -/
def CPT_CONVEX : String := "convex"

/-- `tx_log.address in CONVEX_POOLS` together with `CONVEX_POOLS[addr]`:
lookup in the static address-to-pool-name table. -/
def poolLookup (pools : List (Address × String)) (addr : Address) : Option String :=
  (pools.find? (fun p => p.1 == addr)).map Prod.snd

/-- A user notification emitted by `notify_user(event, counterparty)`. -/
structure Notification where
  event : HistoryEvent
  counterparty : String
  deriving DecidableEq, Repr

/-- Python `x is False` applied to an address value: the source compares a
string (never the boolean object `False`) against `False` by identity, so the
test is constantly false. -/
def address_is_False (_ : Address) : Bool := false

/-- Shallow embedding of the Python chained comparison on decoder.py line 54,
`event.location_label == context.transaction.from_address == interacted_address is False`:
Python chains comparison operators pairwise, so this reads
`(location_label == from_address) and (from_address == interacted) and (interacted is False)`. -/
def acting_party_chain (location_label : Option Address)
    (from_address interacted : Address) : Bool :=
  (location_label == some from_address) && (from_address == interacted) &&
    address_is_False interacted

/-! ## The decoder rule -/

/-- One iteration of the event loop of `_decode_convex_events`
(decoder.py lines 45-93): given the log and transaction of the decoding
context, maps a history event to the event left behind plus the notification
emitted for it, if any. -/
def decode_convex_event (k : ConvexConstants) (tx_log : EvmTxLog)
    (transaction : EvmTransaction) (event : HistoryEvent) :
    HistoryEvent × Option Notification :=
  let amount_raw := hex_or_bytes_to_int (tx_log.data.take 32)
  let interacted_address := hex_or_bytes_to_address (tx_log.topics.getD 1 0)
  match event.asset.resolve_to_crypto_asset with
  | .error _ => (event, some ⟨event, CPT_CONVEX⟩)
  | .ok crypto_asset =>
    let amount := asset_normalized_value amount_raw crypto_asset
    if acting_party_chain event.location_label transaction.from_address interacted_address ||
        (event.address != some ZERO_ADDRESS && event.balance.amount != amount) then
      (event, none)
    else if event.event_type = HistoryEventType.spend ∧
        event.event_subtype = HistoryEventSubType.none then
      if event.address = some ZERO_ADDRESS then
        ({ event with
            event_subtype := HistoryEventSubType.return_wrapped
            counterparty := some CPT_CONVEX
            notes := some (match poolLookup k.CONVEX_POOLS tx_log.address with
              | some pool =>
                  "Return " ++ toString event.balance.amount ++ " " ++
                    crypto_asset.symbol ++ " to convex " ++ pool ++ " pool"
              | none =>
                  "Return " ++ toString event.balance.amount ++ " " ++
                    crypto_asset.symbol ++ " to convex") },
          none)
      else
        ({ event with
            event_type := HistoryEventType.deposit
            counterparty := some CPT_CONVEX
            notes := some (match poolLookup k.CONVEX_POOLS tx_log.address with
              | some pool =>
                  "Deposit " ++ toString event.balance.amount ++ " " ++
                    crypto_asset.symbol ++ " into convex " ++ pool ++ " pool"
              | none =>
                  "Deposit " ++ toString event.balance.amount ++ " " ++
                    crypto_asset.symbol ++ " into convex") },
          none)
    else if event.event_type = HistoryEventType.receive ∧
        event.event_subtype = HistoryEventSubType.none then
      if tx_log.topics.getD 0 0 ∈ k.WITHDRAWAL_TOPICS then
        ({ event with
            event_type := HistoryEventType.withdrawal
            counterparty := some CPT_CONVEX
            notes := some (match poolLookup k.CONVEX_POOLS tx_log.address with
              | some pool =>
                  "Withdraw " ++ toString event.balance.amount ++ " " ++
                    crypto_asset.symbol ++ " from convex " ++ pool ++ " pool"
              | none =>
                  "Withdraw " ++ toString event.balance.amount ++ " " ++
                    crypto_asset.symbol ++ " from convex") },
          none)
      else if tx_log.topics.getD 0 0 ∈ k.REWARD_TOPICS then
        ({ event with
            event_subtype := HistoryEventSubType.reward
            counterparty := some CPT_CONVEX
            notes := some (match poolLookup k.CONVEX_POOLS tx_log.address with
              | some pool =>
                  "Claim " ++ toString event.balance.amount ++ " " ++
                    crypto_asset.symbol ++ " reward from convex " ++ pool ++ " pool"
              | none =>
                  "Claim " ++ toString event.balance.amount ++ " " ++
                    crypto_asset.symbol ++ " reward from convex") },
          none)
      else (event, none)
    else (event, none)

/-- `_decode_convex_events` over the whole decoded-event list: each event is
processed independently by `decode_convex_event` (the `for` loop mutates each
event in place and `continue`s); the rule itself always returns the default
decoding output, so its entire effect is the event list left behind and the
notifications emitted. -/
def decode_convex_events (k : ConvexConstants) (tx_log : EvmTxLog)
    (transaction : EvmTransaction) (decoded_events : List HistoryEvent) :
    List HistoryEvent × List Notification :=
  (decoded_events.map (fun e => (decode_convex_event k tx_log transaction e).1),
   decoded_events.filterMap (fun e => (decode_convex_event k tx_log transaction e).2))

/-! ## The enrichment rule -/

/-- The enrichment output sentinel: the rule always returns
`DEFAULT_ENRICHMENT_OUTPUT`. -/
inductive TransferEnrichmentOutput
  | default
  deriving DecidableEq, Repr

/-- `_maybe_enrich_convex_transfers` (decoder.py lines 96-122): returns the
event state left behind together with the normal enrichment output, or the
asset-resolution error when `resolve_to_crypto_asset` raises inside the
matched branch (the raise happens before any field of the event is written). -/
def maybe_enrich_convex_transfers (k : ConvexConstants) (tx_log : EvmTxLog)
    (transaction : EvmTransaction) (event : HistoryEvent) :
    HistoryEvent × Except AssetError TransferEnrichmentOutput :=
  if tx_log.topics.getD 0 0 = k.ERC20_OR_ERC721_TRANSFER ∧
      tx_log.topics.getD 1 0 ∈ k.CONVEX_ABRAS_HEX ∧
      event.location_label = some transaction.from_address ∧
      event.event_type = HistoryEventType.receive ∧
      event.event_subtype = HistoryEventSubType.none then
    match event.asset.resolve_to_crypto_asset with
    | .error e => (event, .error e)
    | .ok crypto_asset =>
      ({ event with
          event_subtype := HistoryEventSubType.reward
          notes := some (match poolLookup k.CONVEX_POOLS tx_log.address with
            | some pool =>
                "Claim " ++ toString event.balance.amount ++ " " ++
                  crypto_asset.symbol ++ " reward from convex " ++ pool ++ " pool"
            | none =>
                "Claim " ++ toString event.balance.amount ++ " " ++
                  crypto_asset.symbol ++ " reward from convex")
          counterparty := some CPT_CONVEX },
        .ok .default)
  else (event, .ok .default)

/-! ## The data-migration manager

`rotkehlchen/data_migrations/manager.py` is not among the sampled sources
(only its tests are), so the manager is modelled from the spec. -/

/-- What invoking a migration function does: return normally or raise an
exception carrying a message. -/
inductive MigrationOutcome
  | ok
  | raises (message : String)
  deriving DecidableEq, Repr

/-- One registered migration: its version and the outcome of invoking its
function with the external context and progress handler.  Modelled from the
spec: `MigrationRecord = (version, function)`, the function's side effects
are out of scope here. -/
structure MigrationRecord where
  version : Nat
  outcome : MigrationOutcome
  deriving DecidableEq, Repr

/-- The error-notification text recorded when a migration function raises.
Modelled from the spec: error reports carry the plain string
`Failed to run soft data migration to version {v} due to {message}`. -/
def failure_message (version : Nat) (message : String) : String :=
  "Failed to run soft data migration to version " ++ toString version ++
    " due to " ++ message

/-- Modelled from the spec, step 2 of `maybe_migrate_data`: the ordered
subsequence of records with version greater than the marker (the registered
list is ordered ascending by version, so filtering preserves the order). -/
def selected_migrations (migration_list : List MigrationRecord) (m : Nat) :
    List MigrationRecord :=
  migration_list.filter (fun r => m < r.version)

/-- Modelled from the spec, step 4 of `maybe_migrate_data`: run the selected
records in order starting from marker `m`; on normal return commit the marker
to that record's version and continue; on a raise record a single error
notification and stop, leaving the marker where it was.  Returns the final
marker, the error notifications recorded, and the versions whose functions
were invoked. -/
def run_migrations : List MigrationRecord → Nat → Nat × List String × List Nat
  | [], m => (m, [], [])
  | r :: rest, m =>
    match r.outcome with
    | .ok =>
      let result := run_migrations rest r.version
      (result.1, result.2.1, r.version :: result.2.2)
    | .raises msg => (m, [failure_message r.version msg], [r.version])

/-- Modelled from the spec and the repository's tests:
`DataMigrationManager.maybe_migrate_data()`.  `migration_list` is the
module-level `MIGRATION_LIST` from which migrations are selected (tests patch
it independently of the constant below), and `last_data_migration` stands for
the constant `LAST_DATA_MIGRATION`, the highest version number known across
all registered migrations.  `marker` is the persisted `last_data_migration`
setting, absent on a fresh database (treated as 0, "no migrations ever run").
Returns the final persisted marker, the error notifications recorded, and the
versions invoked.  The selected subsequence runs from the present marker,
committing each completed version (spec step 4d); the tests additionally pin
down the end of a raise-free run: after running only the version-1 migration
from marker 0 the persisted marker equals `LAST_DATA_MIGRATION`
(test_migrations.py lines 115-129), and with an absent marker and nothing
selected it also equals `LAST_DATA_MIGRATION` (lines 567-587) — so a run in
which no migration raises finally persists the constant itself, while a
failed run leaves the marker at the last committed version
(lines 136-164). -/
def maybe_migrate_data (migration_list : List MigrationRecord)
    (last_data_migration : Nat) (marker : Option Nat) :
    Nat × List String × List Nat :=
  let m := marker.getD 0
  let result := run_migrations (selected_migrations migration_list m) m
  if result.2.1 = [] then
    (last_data_migration, result.2.1, result.2.2)
  else
    result

/-- The maximum version among a list of migration records. -/
def max_version (l : List MigrationRecord) : Nat :=
  (l.map MigrationRecord.version).foldr max 0

/-! ## Claims about the decoder rule -/

/-- Helper: the Python chained comparison on decoder.py line 54 is constantly
false, because its last link tests a string for identity with the object
`False`: the acting-party filter never fires. -/
theorem acting_party_chain_false (location_label : Option Address)
    (from_address interacted : Address) :
    acting_party_chain location_label from_address interacted = false := by
  simp [acting_party_chain, address_is_False]

/-- Concrete input exhibiting the vacuous acting-party check: a `SPEND`/`NONE`
event whose `location_label` is address 1 while the transaction initiator is
address 2. -/
def sample_event : HistoryEvent :=
  { event_type := HistoryEventType.spend
    event_subtype := HistoryEventSubType.none
    asset := ⟨AssetResolution.resolved ⟨"CVX", 0⟩⟩
    balance := ⟨5⟩
    location_label := some 1
    address := some ZERO_ADDRESS
    notes := none
    counterparty := none }

def sample_constants : ConvexConstants := ⟨[], [], [], [], 0⟩

def sample_log : EvmTxLog := ⟨9, [99, 1], []⟩

def sample_transaction : EvmTransaction := ⟨2⟩

/-- C1: the claim fails on the code.  The expression
`event.location_label == context.transaction.from_address == interacted_address is False`
(line 54) chains to `(A == B) and (B == C) and (C is False)`, and an address
string is never the object `False`, so the acting-party filter is vacuous: on
this concrete input the event's `location_label` (1) differs from the
transaction's `from_address` (2), yet the rule still mutates the event to
`RETURN_WRAPPED`. -/
theorem C1_acting_party_check_vacuous :
    sample_event.location_label ≠ some sample_transaction.from_address ∧
    (decode_convex_event sample_constants sample_log sample_transaction sample_event).1.event_subtype =
      HistoryEventSubType.return_wrapped ∧
    (decode_convex_event sample_constants sample_log sample_transaction sample_event).1 ≠ sample_event := by
  refine ⟨by decide, rfl, by decide⟩

/-- C2: amount correlation.  For every event whose counterparty address is not
the zero address and whose balance amount differs from the log's raw amount
(first 32 bytes of data, big-endian) normalized by the event's asset decimals,
the rule skips the event: it is returned unmutated and no notification is
emitted. -/
theorem C2_amount_correlation_skip (k : ConvexConstants) (tx_log : EvmTxLog)
    (transaction : EvmTransaction) (event : HistoryEvent) (ca : CryptoAsset)
    (hres : event.asset.resolve_to_crypto_asset = Except.ok ca)
    (haddr : event.address ≠ some ZERO_ADDRESS)
    (hamt : event.balance.amount ≠
      asset_normalized_value (hex_or_bytes_to_int (tx_log.data.take 32)) ca) :
    decode_convex_event k tx_log transaction event = (event, none) := by
  unfold decode_convex_event
  rw [hres]
  simp [acting_party_chain_false, haddr, hamt]

/-- Witness for C2: a concrete event with counterparty address 7 and balance 1
against a log whose normalized raw amount is 2 is left unmutated. -/
theorem C2_amount_correlation_skip_witness :
    decode_convex_event sample_constants ⟨9, [99, 1], [2]⟩ sample_transaction
      { sample_event with address := some 7, balance := ⟨1⟩ } =
      ({ sample_event with address := some 7, balance := ⟨1⟩ }, none) :=
  C2_amount_correlation_skip sample_constants ⟨9, [99, 1], [2]⟩ sample_transaction
    { sample_event with address := some 7, balance := ⟨1⟩ } ⟨"CVX", 0⟩
    rfl (by decide) (by norm_num [asset_normalized_value, hex_or_bytes_to_int])

/-- C6: SPEND-branch classification.  For a `(SPEND, NONE)` event passing the
correlation checks (acting-party chain plus amount correlation, the latter
waived at the zero address): with a zero-address counterparty the subtype
becomes `RETURN_WRAPPED` (the event type stays `SPEND`) regardless of the
balance amount; otherwise the event type becomes `DEPOSIT`.  In both branches
the counterparty tag is set, all other fields are unchanged, and the note
names the pool exactly when the log's emitting address is in the static pool
table, else uses the generic protocol name. -/
theorem C6_spend_branch (k : ConvexConstants) (tx_log : EvmTxLog)
    (transaction : EvmTransaction) (event : HistoryEvent) (ca : CryptoAsset)
    (hres : event.asset.resolve_to_crypto_asset = Except.ok ca)
    (htype : event.event_type = HistoryEventType.spend)
    (hsub : event.event_subtype = HistoryEventSubType.none)
    (hloc : event.location_label = some transaction.from_address)
    (hinter : hex_or_bytes_to_address (tx_log.topics.getD 1 0) = transaction.from_address)
    (hamt : event.address = some ZERO_ADDRESS ∨
      event.balance.amount =
        asset_normalized_value (hex_or_bytes_to_int (tx_log.data.take 32)) ca) :
    (decode_convex_event k tx_log transaction event).2 = none ∧
    (decode_convex_event k tx_log transaction event).1.event_type =
      (if event.address = some ZERO_ADDRESS then HistoryEventType.spend
        else HistoryEventType.deposit) ∧
    (decode_convex_event k tx_log transaction event).1.event_subtype =
      (if event.address = some ZERO_ADDRESS then HistoryEventSubType.return_wrapped
        else HistoryEventSubType.none) ∧
    (decode_convex_event k tx_log transaction event).1.counterparty = some CPT_CONVEX ∧
    (decode_convex_event k tx_log transaction event).1.asset = event.asset ∧
    (decode_convex_event k tx_log transaction event).1.balance = event.balance ∧
    (decode_convex_event k tx_log transaction event).1.location_label =
      event.location_label ∧
    (decode_convex_event k tx_log transaction event).1.address = event.address ∧
    (event.address = some ZERO_ADDRESS →
      (∀ p, poolLookup k.CONVEX_POOLS tx_log.address = some p →
        (decode_convex_event k tx_log transaction event).1.notes =
          some ("Return " ++ toString event.balance.amount ++ " " ++ ca.symbol ++
            " to convex " ++ p ++ " pool")) ∧
      (poolLookup k.CONVEX_POOLS tx_log.address = none →
        (decode_convex_event k tx_log transaction event).1.notes =
          some ("Return " ++ toString event.balance.amount ++ " " ++ ca.symbol ++
            " to convex"))) ∧
    (event.address ≠ some ZERO_ADDRESS →
      (∀ p, poolLookup k.CONVEX_POOLS tx_log.address = some p →
        (decode_convex_event k tx_log transaction event).1.notes =
          some ("Deposit " ++ toString event.balance.amount ++ " " ++ ca.symbol ++
            " into convex " ++ p ++ " pool")) ∧
      (poolLookup k.CONVEX_POOLS tx_log.address = none →
        (decode_convex_event k tx_log transaction event).1.notes =
          some ("Deposit " ++ toString event.balance.amount ++ " " ++ ca.symbol ++
            " into convex"))) := by
  by_cases h0 : event.address = some ZERO_ADDRESS
  · cases hpool : poolLookup k.CONVEX_POOLS tx_log.address <;>
      simp [decode_convex_event, hres, acting_party_chain_false, htype, hsub, h0, hpool]
  · have hamt2 : event.balance.amount =
        asset_normalized_value (hex_or_bytes_to_int (tx_log.data.take 32)) ca :=
      hamt.resolve_left h0
    cases hpool : poolLookup k.CONVEX_POOLS tx_log.address <;>
      simp [decode_convex_event, hres, acting_party_chain_false, htype, hsub, h0, hpool,
        hamt2]

/-- A `(SPEND, NONE)` event whose acting party matches the transaction
initiator (address 2) with a zero-address counterparty. -/
def w6_event : HistoryEvent :=
  { sample_event with location_label := some 2, address := some ZERO_ADDRESS }

def w6_log : EvmTxLog := ⟨9, [99, 2], []⟩

/-- Witness for C6: the concrete zero-address spend above is reclassified to
`(SPEND, RETURN_WRAPPED)` with the counterparty tag set, even though its
balance (5) differs from the log's normalized raw amount (0). -/
theorem C6_spend_branch_witness :
    (decode_convex_event sample_constants w6_log sample_transaction w6_event).1.event_type =
      HistoryEventType.spend ∧
    (decode_convex_event sample_constants w6_log sample_transaction w6_event).1.event_subtype =
      HistoryEventSubType.return_wrapped ∧
    (decode_convex_event sample_constants w6_log sample_transaction w6_event).1.counterparty =
      some CPT_CONVEX := by
  have h := C6_spend_branch sample_constants w6_log sample_transaction w6_event
    ⟨"CVX", 0⟩ rfl rfl rfl rfl
    (by norm_num [hex_or_bytes_to_address, w6_log, sample_transaction])
    (Or.inl rfl)
  refine ⟨?_, ?_, h.2.2.2.1⟩
  · simpa using h.2.1
  · simpa using h.2.2.1

/-- C5: RECEIVE-branch classification.  For a `(RECEIVE, NONE)` event passing
the correlation checks, with the withdrawal and reward signature sets disjoint
as the spec states: a `topics[0]` in the withdrawal set turns the event type
into `WITHDRAWAL` with the counterparty tag set and a withdraw note; a
`topics[0]` in the reward set turns the subtype into `REWARD` with the
counterparty tag set and a note mentioning the reward; a `topics[0]` in
neither set leaves every field of the event unchanged and emits nothing. -/
theorem C5_receive_branch (k : ConvexConstants) (tx_log : EvmTxLog)
    (transaction : EvmTransaction) (event : HistoryEvent) (ca : CryptoAsset)
    (hdisj : ∀ t ∈ k.WITHDRAWAL_TOPICS, t ∉ k.REWARD_TOPICS)
    (hres : event.asset.resolve_to_crypto_asset = Except.ok ca)
    (htype : event.event_type = HistoryEventType.receive)
    (hsub : event.event_subtype = HistoryEventSubType.none)
    (hloc : event.location_label = some transaction.from_address)
    (hinter : hex_or_bytes_to_address (tx_log.topics.getD 1 0) = transaction.from_address)
    (hamt : event.address = some ZERO_ADDRESS ∨
      event.balance.amount =
        asset_normalized_value (hex_or_bytes_to_int (tx_log.data.take 32)) ca) :
    (tx_log.topics.getD 0 0 ∈ k.WITHDRAWAL_TOPICS →
      (decode_convex_event k tx_log transaction event).2 = none ∧
      (decode_convex_event k tx_log transaction event).1.event_type =
        HistoryEventType.withdrawal ∧
      (decode_convex_event k tx_log transaction event).1.event_subtype =
        HistoryEventSubType.none ∧
      (decode_convex_event k tx_log transaction event).1.counterparty =
        some CPT_CONVEX ∧
      (∀ p, poolLookup k.CONVEX_POOLS tx_log.address = some p →
        (decode_convex_event k tx_log transaction event).1.notes =
          some ("Withdraw " ++ toString event.balance.amount ++ " " ++ ca.symbol ++
            " from convex " ++ p ++ " pool")) ∧
      (poolLookup k.CONVEX_POOLS tx_log.address = none →
        (decode_convex_event k tx_log transaction event).1.notes =
          some ("Withdraw " ++ toString event.balance.amount ++ " " ++ ca.symbol ++
            " from convex"))) ∧
    (tx_log.topics.getD 0 0 ∈ k.REWARD_TOPICS →
      (decode_convex_event k tx_log transaction event).2 = none ∧
      (decode_convex_event k tx_log transaction event).1.event_type =
        HistoryEventType.receive ∧
      (decode_convex_event k tx_log transaction event).1.event_subtype =
        HistoryEventSubType.reward ∧
      (decode_convex_event k tx_log transaction event).1.counterparty =
        some CPT_CONVEX ∧
      (∀ p, poolLookup k.CONVEX_POOLS tx_log.address = some p →
        (decode_convex_event k tx_log transaction event).1.notes =
          some ("Claim " ++ toString event.balance.amount ++ " " ++ ca.symbol ++
            " reward from convex " ++ p ++ " pool")) ∧
      (poolLookup k.CONVEX_POOLS tx_log.address = none →
        (decode_convex_event k tx_log transaction event).1.notes =
          some ("Claim " ++ toString event.balance.amount ++ " " ++ ca.symbol ++
            " reward from convex"))) ∧
    (tx_log.topics.getD 0 0 ∉ k.WITHDRAWAL_TOPICS →
      tx_log.topics.getD 0 0 ∉ k.REWARD_TOPICS →
      decode_convex_event k tx_log transaction event = (event, none)) := by
  refine ⟨fun hw => ?_, fun hr => ?_, fun hw hr => ?_⟩
  · simp only [List.getD_eq_getElem?_getD] at hw
    rcases hamt with h0 | hamt2
    · cases hpool : poolLookup k.CONVEX_POOLS tx_log.address <;>
        simp [decode_convex_event, hres, acting_party_chain_false, htype, hsub, hw,
          hpool, h0]
    · cases hpool : poolLookup k.CONVEX_POOLS tx_log.address <;>
        simp [decode_convex_event, hres, acting_party_chain_false, htype, hsub, hw,
          hpool, hamt2]
  · have hw : tx_log.topics.getD 0 0 ∉ k.WITHDRAWAL_TOPICS :=
      fun hw => hdisj _ hw hr
    simp only [List.getD_eq_getElem?_getD] at hw hr
    rcases hamt with h0 | hamt2
    · cases hpool : poolLookup k.CONVEX_POOLS tx_log.address <;>
        simp [decode_convex_event, hres, acting_party_chain_false, htype, hsub, hw, hr,
          hpool, h0]
    · cases hpool : poolLookup k.CONVEX_POOLS tx_log.address <;>
        simp [decode_convex_event, hres, acting_party_chain_false, htype, hsub, hw, hr,
          hpool, hamt2]
  · simp only [List.getD_eq_getElem?_getD] at hw hr
    rcases hamt with h0 | hamt2
    · simp [decode_convex_event, hres, acting_party_chain_false, htype, hsub, hw, hr, h0]
    · simp [decode_convex_event, hres, acting_party_chain_false, htype, hsub, hw, hr,
        hamt2]

/-- A `(RECEIVE, NONE)` event matching the acting party of the transaction. -/
def w5_event : HistoryEvent :=
  { sample_event with
      event_type := HistoryEventType.receive
      location_label := some 2
      address := some ZERO_ADDRESS }

/-- Constants with one withdrawal signature (77) and one reward signature
(88), and pool 9 named. -/
def w5_constants : ConvexConstants := ⟨[77], [88], [(9, "cvxSTETH")], [], 0⟩

def w5_log : EvmTxLog := ⟨9, [88, 2], []⟩

/-- Witness for C5: a log carrying the reward signature 88 against the
concrete receive event above turns its subtype into `REWARD` with the
counterparty tag set, keeping the event type `RECEIVE`. -/
theorem C5_receive_branch_witness :
    (decode_convex_event w5_constants w5_log sample_transaction w5_event).1.event_type =
      HistoryEventType.receive ∧
    (decode_convex_event w5_constants w5_log sample_transaction w5_event).1.event_subtype =
      HistoryEventSubType.reward ∧
    (decode_convex_event w5_constants w5_log sample_transaction w5_event).1.counterparty =
      some CPT_CONVEX := by
  have h := C5_receive_branch w5_constants w5_log sample_transaction w5_event
    ⟨"CVX", 0⟩ (by decide) rfl rfl rfl rfl
    (by norm_num [hex_or_bytes_to_address, w5_log, sample_transaction])
    (Or.inl rfl)
  have hr := h.2.1 (by decide)
  exact ⟨hr.2.1, hr.2.2.1, hr.2.2.2.1⟩

/-! ## Claims about the enrichment rule -/

/-- C8: enrichment rule contract.  When the log carries the generic
ERC20/ERC721 transfer signature, its second topic is in the intermediary-token
allow-list, the event's location label equals the transaction initiator, and
the event sits at `(RECEIVE, NONE)` — and the asset resolves — the rule sets
the subtype to `REWARD`, tags the counterparty, attaches a reward note, keeps
every other field, and returns the default enrichment output; when any of the
four match conditions fails it returns the event unchanged with the default
enrichment output, without raising. -/
theorem C8_enrichment_contract (k : ConvexConstants) (tx_log : EvmTxLog)
    (transaction : EvmTransaction) (event : HistoryEvent) :
    (∀ ca, event.asset.resolve_to_crypto_asset = Except.ok ca →
      tx_log.topics.getD 0 0 = k.ERC20_OR_ERC721_TRANSFER →
      tx_log.topics.getD 1 0 ∈ k.CONVEX_ABRAS_HEX →
      event.location_label = some transaction.from_address →
      event.event_type = HistoryEventType.receive →
      event.event_subtype = HistoryEventSubType.none →
      (maybe_enrich_convex_transfers k tx_log transaction event).2 =
        Except.ok TransferEnrichmentOutput.default ∧
      (maybe_enrich_convex_transfers k tx_log transaction event).1.event_type =
        HistoryEventType.receive ∧
      (maybe_enrich_convex_transfers k tx_log transaction event).1.event_subtype =
        HistoryEventSubType.reward ∧
      (maybe_enrich_convex_transfers k tx_log transaction event).1.counterparty =
        some CPT_CONVEX ∧
      (maybe_enrich_convex_transfers k tx_log transaction event).1.asset =
        event.asset ∧
      (maybe_enrich_convex_transfers k tx_log transaction event).1.balance =
        event.balance ∧
      (maybe_enrich_convex_transfers k tx_log transaction event).1.location_label =
        event.location_label ∧
      (maybe_enrich_convex_transfers k tx_log transaction event).1.address =
        event.address ∧
      (∀ p, poolLookup k.CONVEX_POOLS tx_log.address = some p →
        (maybe_enrich_convex_transfers k tx_log transaction event).1.notes =
          some ("Claim " ++ toString event.balance.amount ++ " " ++ ca.symbol ++
            " reward from convex " ++ p ++ " pool")) ∧
      (poolLookup k.CONVEX_POOLS tx_log.address = none →
        (maybe_enrich_convex_transfers k tx_log transaction event).1.notes =
          some ("Claim " ++ toString event.balance.amount ++ " " ++ ca.symbol ++
            " reward from convex"))) ∧
    (¬(tx_log.topics.getD 0 0 = k.ERC20_OR_ERC721_TRANSFER ∧
        tx_log.topics.getD 1 0 ∈ k.CONVEX_ABRAS_HEX ∧
        event.location_label = some transaction.from_address ∧
        event.event_type = HistoryEventType.receive ∧
        event.event_subtype = HistoryEventSubType.none) →
      maybe_enrich_convex_transfers k tx_log transaction event =
        (event, Except.ok TransferEnrichmentOutput.default)) := by
  constructor
  · intro ca hres h1 h2 h3 h4 h5
    have hcond : tx_log.topics.getD 0 0 = k.ERC20_OR_ERC721_TRANSFER ∧
        tx_log.topics.getD 1 0 ∈ k.CONVEX_ABRAS_HEX ∧
        event.location_label = some transaction.from_address ∧
        event.event_type = HistoryEventType.receive ∧
        event.event_subtype = HistoryEventSubType.none := ⟨h1, h2, h3, h4, h5⟩
    unfold maybe_enrich_convex_transfers
    rw [if_pos hcond, hres]
    cases hpool : poolLookup k.CONVEX_POOLS tx_log.address <;> simp [h4, hpool]
  · intro hnot
    unfold maybe_enrich_convex_transfers
    rw [if_neg hnot]

/-- Witness constants for the enrichment rule: transfer signature 555,
abracadabra allow-list containing topic 444. -/
def w8_constants : ConvexConstants := ⟨[], [], [], [444], 555⟩

def w8_log : EvmTxLog := ⟨9, [555, 444], []⟩

def w8_event : HistoryEvent :=
  { sample_event with
      event_type := HistoryEventType.receive
      location_label := some 2 }

/-- Witness for C8: on the concrete matching transfer the enrichment rule
reclassifies the receive event to the `REWARD` subtype with the counterparty
tag, and on a non-matching log (wrong signature) it leaves the event
untouched. -/
theorem C8_enrichment_contract_witness :
    (maybe_enrich_convex_transfers w8_constants w8_log sample_transaction
      w8_event).1.event_subtype = HistoryEventSubType.reward ∧
    (maybe_enrich_convex_transfers w8_constants w8_log sample_transaction
      w8_event).1.counterparty = some CPT_CONVEX ∧
    maybe_enrich_convex_transfers w8_constants ⟨9, [7, 444], []⟩ sample_transaction
      w8_event = (w8_event, Except.ok TransferEnrichmentOutput.default) := by
  have h := C8_enrichment_contract w8_constants w8_log sample_transaction w8_event
  have hmatch := h.1 ⟨"CVX", 0⟩ rfl rfl (by decide) rfl rfl rfl
  have hmiss := (C8_enrichment_contract w8_constants ⟨9, [7, 444], []⟩
    sample_transaction w8_event).2 (by decide)
  exact ⟨hmatch.2.2.1, hmatch.2.2.2.1, hmiss⟩

/-- C10: the enrichment rule does not catch asset-resolution failures.  When
all four match conditions hold but the event's asset does not resolve, the
rule propagates the `UnknownAsset` / `WrongAssetType` error to its caller, and
the event state at the moment of the raise is completely unchanged —
resolution happens before any mutation. -/
theorem C10_enrichment_propagates_resolution_error (k : ConvexConstants)
    (tx_log : EvmTxLog) (transaction : EvmTransaction) (event : HistoryEvent)
    (e : AssetError)
    (hres : event.asset.resolve_to_crypto_asset = Except.error e)
    (h1 : tx_log.topics.getD 0 0 = k.ERC20_OR_ERC721_TRANSFER)
    (h2 : tx_log.topics.getD 1 0 ∈ k.CONVEX_ABRAS_HEX)
    (h3 : event.location_label = some transaction.from_address)
    (h4 : event.event_type = HistoryEventType.receive)
    (h5 : event.event_subtype = HistoryEventSubType.none) :
    maybe_enrich_convex_transfers k tx_log transaction event =
      (event, Except.error e) := by
  unfold maybe_enrich_convex_transfers
  rw [if_pos ⟨h1, h2, h3, h4, h5⟩, hres]

/-- Witness for C10: the matching receive event with an unresolvable asset is
returned unchanged together with the raised `UnknownAsset` error. -/
theorem C10_enrichment_propagates_resolution_error_witness :
    maybe_enrich_convex_transfers w8_constants w8_log sample_transaction
      { w8_event with asset := ⟨AssetResolution.unknown⟩ } =
      ({ w8_event with asset := ⟨AssetResolution.unknown⟩ },
        Except.error AssetError.unknownAsset) :=
  C10_enrichment_propagates_resolution_error w8_constants w8_log sample_transaction
    { w8_event with asset := ⟨AssetResolution.unknown⟩ } AssetError.unknownAsset
    rfl rfl (by decide) rfl rfl rfl

/-- C9: per-event error isolation in the decoder.  An event whose asset
resolution raises `UnknownAsset` / `WrongAssetType` is left unmutated and gets
one user notification, and the loop continues: every other event of the
context is processed exactly as it would be on its own — the exception never
escapes the rule. -/
theorem C9_unknown_asset_notify_and_continue (k : ConvexConstants)
    (tx_log : EvmTxLog) (transaction : EvmTransaction)
    (pre post : List HistoryEvent) (event : HistoryEvent) (e : AssetError)
    (hres : event.asset.resolve_to_crypto_asset = Except.error e) :
    decode_convex_events k tx_log transaction (pre ++ event :: post) =
      ((decode_convex_events k tx_log transaction pre).1 ++
        event :: (decode_convex_events k tx_log transaction post).1,
       (decode_convex_events k tx_log transaction pre).2 ++
        ⟨event, CPT_CONVEX⟩ :: (decode_convex_events k tx_log transaction post).2) := by
  have hone : decode_convex_event k tx_log transaction event =
      (event, some ⟨event, CPT_CONVEX⟩) := by
    unfold decode_convex_event
    rw [hres]
  simp [decode_convex_events, hone]

/-- Witness for C9: decoding a context holding one well-formed spend event and
one event with an unresolvable asset leaves the latter unchanged, notifies
about it, and still processes the former. -/
theorem C9_unknown_asset_notify_and_continue_witness :
    decode_convex_events sample_constants w6_log sample_transaction
      [{ sample_event with asset := ⟨AssetResolution.wrongType⟩ }] =
      ([{ sample_event with asset := ⟨AssetResolution.wrongType⟩ }],
       [⟨{ sample_event with asset := ⟨AssetResolution.wrongType⟩ }, CPT_CONVEX⟩]) := by
  have h := C9_unknown_asset_notify_and_continue sample_constants w6_log
    sample_transaction [] [] { sample_event with asset := ⟨AssetResolution.wrongType⟩ }
    AssetError.wrongAssetType rfl
  simpa [decode_convex_events] using h


/-! ## Claims about the migration manager -/

/-- The marker left after committing, in order, each version of `versions` on
top of the starting marker `m`: the last version when there is one, `m`
otherwise. -/
def final_marker (m : Nat) (versions : List Nat) : Nat :=
  versions.foldl (fun _ v => v) m

/-- Helper: a run in which every migration returns normally commits the last
selected version (or keeps the starting marker when none is selected),
records no error, and invokes every selected migration in order. -/
theorem run_migrations_all_ok : ∀ (l : List MigrationRecord) (m : Nat),
    (∀ r ∈ l, r.outcome = MigrationOutcome.ok) →
    run_migrations l m =
      (final_marker m (l.map MigrationRecord.version), [],
        l.map MigrationRecord.version) := by
  intro l
  induction l with
  | nil => intro m _; simp [run_migrations, final_marker]
  | cons r rest ih =>
    intro m hok
    have hr : r.outcome = MigrationOutcome.ok := hok r (List.mem_cons_self r rest)
    have hrest : ∀ x ∈ rest, x.outcome = MigrationOutcome.ok :=
      fun x hx => hok x (List.mem_cons_of_mem r hx)
    simp [run_migrations, hr, ih r.version hrest, final_marker]

/-- Helper: a run whose selected subsequence is an all-ok block followed by a
raising record stops at the raising record: the marker is the last version of
the ok block (or the starting marker), exactly one error is recorded with the
exact failure text, and the records after the raising one are not invoked. -/
theorem run_migrations_failure (post : List MigrationRecord)
    (bad : MigrationRecord) (msg : String)
    (hbad : bad.outcome = MigrationOutcome.raises msg) :
    ∀ (pre : List MigrationRecord) (m : Nat),
      (∀ r ∈ pre, r.outcome = MigrationOutcome.ok) →
      run_migrations (pre ++ bad :: post) m =
        (final_marker m (pre.map MigrationRecord.version),
         [failure_message bad.version msg],
         pre.map MigrationRecord.version ++ [bad.version]) := by
  intro pre
  induction pre with
  | nil => intro m _; simp [run_migrations, hbad, final_marker]
  | cons r rest ih =>
    intro m hok
    have hr : r.outcome = MigrationOutcome.ok := hok r (List.mem_cons_self r rest)
    have hrest : ∀ x ∈ rest, x.outcome = MigrationOutcome.ok :=
      fun x hx => hok x (List.mem_cons_of_mem r hx)
    simp [run_migrations, hr, ih r.version hrest, final_marker]

/-- C3: counterexample to the claim as stated.  Starting from marker 0 and
running only a single registered migration of version 1 (which succeeds), the
persisted marker is the `LAST_DATA_MIGRATION` constant (9 in the staged
repository), not 1, the maximum version completed in the call — exactly what
test_migrations.py line 129 asserts at this input. -/
theorem C3_max_completed_counterexample :
    (maybe_migrate_data [⟨1, MigrationOutcome.ok⟩] 9 (some 0)).1 = 9 ∧
    max_version (selected_migrations [⟨1, MigrationOutcome.ok⟩] 0) = 1 ∧
    (maybe_migrate_data [⟨1, MigrationOutcome.ok⟩] 9 (some 0)).1 ≠
      max_version (selected_migrations [⟨1, MigrationOutcome.ok⟩] 0) := by
  decide

/-- C3 (amended): after any call of `maybe_migrate_data` in which every
selected migration function completed without raising, the persisted marker
equals the `LAST_DATA_MIGRATION` constant — the highest version number known
across all registered migrations — regardless of which migrations actually
ran in the call; no error is recorded and exactly the selected migrations are
invoked, in order. -/
theorem C3_marker_after_success (migration_list : List MigrationRecord)
    (last_data_migration : Nat) (marker : Option Nat)
    (hok : ∀ r ∈ selected_migrations migration_list (marker.getD 0),
      r.outcome = MigrationOutcome.ok) :
    maybe_migrate_data migration_list last_data_migration marker =
      (last_data_migration, [],
        (selected_migrations migration_list (marker.getD 0)).map
          MigrationRecord.version) := by
  simp only [maybe_migrate_data]
  rw [run_migrations_all_ok _ _ hok]
  simp

/-- Witness for the amended C3: from marker 0 with the single registered
migration of version 1 succeeding, the marker ends at the constant (9) with
exactly migration 1 invoked — the scenario of test_migrations.py
lines 115-129. -/
theorem C3_marker_after_success_witness :
    maybe_migrate_data [⟨1, MigrationOutcome.ok⟩] 9 (some 0) = (9, [], [1]) := by
  have h := C3_marker_after_success [⟨1, MigrationOutcome.ok⟩] 9 (some 0) (by decide)
  rw [h]
  rfl

/-- C4: migration failure isolation.  If the selected subsequence is an all-ok
block followed by a record whose function raises, the call records exactly one
error notification with the exact text
`Failed to run soft data migration to version {v} due to {message}`, invokes
none of the remaining selected migrations, and leaves the marker at the last
version that completed in this run, or at its prior value if none did. -/
theorem C4_failure_isolation (migration_list : List MigrationRecord)
    (last_data_migration : Nat) (marker : Option Nat)
    (pre post : List MigrationRecord) (bad : MigrationRecord) (msg : String)
    (hsel : selected_migrations migration_list (marker.getD 0) = pre ++ bad :: post)
    (hpre : ∀ r ∈ pre, r.outcome = MigrationOutcome.ok)
    (hbad : bad.outcome = MigrationOutcome.raises msg) :
    maybe_migrate_data migration_list last_data_migration marker =
      (final_marker (marker.getD 0) (pre.map MigrationRecord.version),
       [failure_message bad.version msg],
       pre.map MigrationRecord.version ++ [bad.version]) := by
  simp only [maybe_migrate_data]
  rw [hsel, run_migrations_failure post bad msg hbad pre (marker.getD 0) hpre,
    if_neg (List.cons_ne_nil _ _)]

/-- Witness for C4: with migrations `[v1 ok, v2 raises "ngmi", v3 ok]` and
marker 0, the run commits marker 1, records exactly the one expected error
string, and never invokes v3. -/
theorem C4_failure_isolation_witness :
    maybe_migrate_data
      [⟨1, MigrationOutcome.ok⟩, ⟨2, MigrationOutcome.raises "ngmi"⟩,
        ⟨3, MigrationOutcome.ok⟩] 9 (some 0) =
      (1, ["Failed to run soft data migration to version 2 due to ngmi"], [1, 2]) := by
  have h := C4_failure_isolation
    [⟨1, MigrationOutcome.ok⟩, ⟨2, MigrationOutcome.raises "ngmi"⟩,
      ⟨3, MigrationOutcome.ok⟩] 9 (some 0)
    [⟨1, MigrationOutcome.ok⟩] [⟨3, MigrationOutcome.ok⟩]
    ⟨2, MigrationOutcome.raises "ngmi"⟩ "ngmi" (by decide) (by decide) rfl
  rw [h]
  rfl

/-- C7: fresh-database initialization.  When the marker is absent and the
selection from the migration list is empty, no migration function is invoked,
no error is recorded, and the marker is set directly to the
`LAST_DATA_MIGRATION` constant — the highest version number known across all
registered migrations. -/
theorem C7_fresh_db_initialization (migration_list : List MigrationRecord)
    (last_data_migration : Nat)
    (hsel : selected_migrations migration_list 0 = []) :
    maybe_migrate_data migration_list last_data_migration none =
      (last_data_migration, [], []) := by
  simp [maybe_migrate_data, hsel, run_migrations]

/-- Witness for C7: on a fresh database with an empty selection the marker is
initialized to the registered maximum (here 9) with nothing invoked. -/
theorem C7_fresh_db_initialization_witness :
    maybe_migrate_data [] 9 none = (9, [], []) :=
  C7_fresh_db_initialization [] 9 rfl

end Rotki
